import Mathlib

/- Formal model of the martivi-chat-api repository (src/app/api/chat/route.ts:
the POST / GET / OPTIONS route handlers, plus the client ChatWidget bundled in
the same source file).  JS strings are modelled as `List Char`, JSON values as
an inductive type, JS objects as association lists, and the two outbound HTTP
calls (the OpenAI provider call and the lead webhook fetch) as explicit
parameters recording their outcomes.  Environment variables are a record of
optional strings; JS truthiness of `process.env.X` is modelled explicitly. -/

/-- Characters of a string literal, the representation of JS strings. -/
def str (s : String) : List Char := s.data

/-- Executable substring test, the model of JS `String.prototype.includes`. -/
def containsSub (pat : List Char) : List Char → Bool
  | [] => pat.isEmpty
  | c :: rest => pat.isPrefixOf (c :: rest) || containsSub pat rest

/-- JSON values, the possible results of `req.json()` / `res.json()`. -/
inductive Json where
  | null
  | bool (b : Bool)
  | num (n : Int)
  | str (s : List Char)
  | arr (elems : List Json)
  | obj (fields : List (List Char × Json))

/-- Property lookup on a JS object; with duplicate keys the last one wins,
as in `JSON.parse`. -/
def jlookup (k : List Char) : List (List Char × Json) → Option Json
  | [] => none
  | (k2, v) :: rest =>
    match jlookup k rest with
    | some w => some w
    | none => if k2 = k then some v else none

/-- The closed role enumeration of `BodySchema` (route.ts line 33). -/
inductive Role where
  | system
  | user
  | assistant
deriving DecidableEq

/-- A chat message as validated by `BodySchema` (route.ts line 28). -/
structure ChatMessage where
  role : Role
  content : List Char
deriving DecidableEq

/-- The optional lead record of `BodySchema` (route.ts lines 29, 36-43). -/
structure Lead where
  name : Option (List Char)
  email : Option (List Char)
  company : Option (List Char)
  budget : Option (List Char)
  timeline : Option (List Char)
  country : Option (List Char)
deriving DecidableEq

/-- The empty object `\x7b\x7d` used as `lead || \x7b\x7d` (route.ts line 80). -/
def emptyLead : Lead := ⟨none, none, none, none, none, none⟩

/-- The result of `BodySchema.parse` on a valid body. -/
structure Payload where
  messages : List ChatMessage
  lead : Option Lead
deriving DecidableEq

/-- One step of a zod issue path (an object key or an array index). -/
inductive PathKey where
  | key (s : List Char)
  | idx (n : Nat)
deriving DecidableEq

/-- A zod v3 validation issue: an `invalid_type` issue carrying the expected
and received type renderings (also used for a missing required key, received
`undefined`), or an `invalid_enum_value` issue carrying the raw received
value, which zod echoes both in the `received` field and in the message. -/
inductive ZodIssue where
  | invalidType (expected received : List Char) (path : List PathKey)
  | invalidEnum (received : List Char) (path : List PathKey)
deriving DecidableEq

/-- The type name zod reports for a received JSON value. -/
def typeName : Json → List Char
  | .null => str "null"
  | .bool _ => str "boolean"
  | .num _ => str "number"
  | .str _ => str "string"
  | .arr _ => str "array"
  | .obj _ => str "object"

/-- The expected-value rendering zod v3 uses for the role enum. -/
def enumExpected : List Char := str "\x27system\x27 | \x27user\x27 | \x27assistant\x27"

/-- Model of `z.enum(["system","user","assistant"])` (route.ts line 33): a
string outside the enum yields an `invalid_enum_value` issue echoing the
received value; a non-string yields an `invalid_type` issue. -/
def parseRole (p : List PathKey) : Json → Except (List ZodIssue) Role
  | .str s =>
    if s = str "system" then .ok .system
    else if s = str "user" then .ok .user
    else if s = str "assistant" then .ok .assistant
    else .error [.invalidEnum s p]
  | j => .error [.invalidType enumExpected (typeName j) p]

/-- Model of `z.string()` (route.ts line 34). -/
def parseStr (p : List PathKey) : Json → Except (List ZodIssue) (List Char)
  | .str s => .ok s
  | j => .error [.invalidType (str "string") (typeName j) p]

/-- Combine two zod sub-results, collecting the issues of both, as zod does. -/
def mergeE {α β : Type} : Except (List ZodIssue) α → Except (List ZodIssue) β →
    Except (List ZodIssue) (α × β)
  | .ok a, .ok b => .ok (a, b)
  | .ok _, .error e => .error e
  | .error e, .ok _ => .error e
  | .error e, .error f => .error (e ++ f)

/-- Model of the per-message object schema (route.ts lines 32-35); unknown
extra keys are ignored, as zod strips them by default. -/
def parseMessage (p : List PathKey) : Json → Except (List ZodIssue) ChatMessage
  | .obj fs =>
    (mergeE
      (match jlookup (str "role") fs with
        | some v => parseRole (p ++ [.key (str "role")]) v
        | none => .error [.invalidType enumExpected (str "undefined") (p ++ [.key (str "role")])])
      (match jlookup (str "content") fs with
        | some v => parseStr (p ++ [.key (str "content")]) v
        | none => .error [.invalidType (str "string") (str "undefined")
            (p ++ [.key (str "content")])])).map
      (fun rc => ⟨rc.1, rc.2⟩)
  | j => .error [.invalidType (str "object") (typeName j) p]

/-- Elementwise validation of the messages array, indices recorded in paths. -/
def parseElems (p : List PathKey) : Nat → List Json → Except (List ZodIssue) (List ChatMessage)
  | _, [] => .ok []
  | i, j :: rest =>
    (mergeE (parseMessage (p ++ [.idx i]) j) (parseElems p (i + 1) rest)).map
      (fun x => x.1 :: x.2)

/-- Model of `z.array(...)` for the messages field (route.ts line 32). -/
def parseMessages (p : List PathKey) : Json → Except (List ZodIssue) (List ChatMessage)
  | .arr xs => parseElems p 0 xs
  | j => .error [.invalidType (str "array") (typeName j) p]

/-- Model of `z.string().optional()` for a lead field (route.ts lines 37-42). -/
def parseOptStr (p : List PathKey) (k : List Char) (fs : List (List Char × Json)) :
    Except (List ZodIssue) (Option (List Char)) :=
  match jlookup k fs with
  | none => .ok none
  | some v => (parseStr (p ++ [.key k]) v).map some

/-- Model of the lead object schema (route.ts lines 36-43). -/
def parseLead (p : List PathKey) : Json → Except (List ZodIssue) Lead
  | .obj fs =>
    (mergeE (parseOptStr p (str "name") fs)
      (mergeE (parseOptStr p (str "email") fs)
        (mergeE (parseOptStr p (str "company") fs)
          (mergeE (parseOptStr p (str "budget") fs)
            (mergeE (parseOptStr p (str "timeline") fs)
              (parseOptStr p (str "country") fs)))))).map
      (fun x => ⟨x.1, x.2.1, x.2.2.1, x.2.2.2.1, x.2.2.2.2.1, x.2.2.2.2.2⟩)
  | j => .error [.invalidType (str "object") (typeName j) p]

/-- Model of `BodySchema.parse` (route.ts lines 31-44, 60): `messages`
defaults to the empty array when absent, `lead` is optional, and a `null`
value for either is a type error (zod defaults apply only to `undefined`). -/
def bodyParse : Json → Except (List ZodIssue) Payload
  | .obj fs =>
    (mergeE
      (match jlookup (str "messages") fs with
        | none => .ok []
        | some v => parseMessages [.key (str "messages")] v)
      (match jlookup (str "lead") fs with
        | none => (.ok none : Except (List ZodIssue) (Option Lead))
        | some v => (parseLead [.key (str "lead")] v).map some)).map
      (fun x => ⟨x.1, x.2⟩)
  | j => .error [.invalidType (str "object") (typeName j) []]

/-- Decimal digit character. -/
def digitChar (d : Nat) : Char := Char.ofNat (48 + d)

/-- Decimal rendering of a natural number, fuel-based. -/
def natCharsCore : Nat → Nat → List Char
  | 0, _ => []
  | fuel + 1, n =>
    if n < 10 then [digitChar n]
    else natCharsCore fuel (n / 10) ++ [digitChar (n % 10)]

/-- Decimal rendering of a natural number. -/
def natChars (n : Nat) : List Char := natCharsCore (n + 1) n

/-- Join a list of strings with a separator. -/
def joinWith (sep : List Char) : List (List Char) → List Char
  | [] => []
  | [x] => x
  | x :: y :: rest => x ++ sep ++ joinWith sep (y :: rest)

/-- Quote a string the way JSON.stringify renders it (escaping elided). -/
def quoteJ (s : List Char) : List Char := '"' :: (s ++ ['"'])

/-- Render one step of a zod issue path as JSON.stringify does: object keys
quoted, array indices as bare numbers. -/
def renderKeyJ : PathKey → List Char
  | .key s => quoteJ s
  | .idx n => natChars n

/-- Render a zod issue path, e.g. `["messages", 0, "role"]`. -/
def renderPathJ (p : List PathKey) : List Char :=
  str "[" ++ joinWith (str ", ") (p.map renderKeyJ) ++ str "]"

/-- The human message of a zod v3 `invalid_type` issue: `Required` for a
missing key (received `undefined`), else `Expected X, received Y`. -/
def invalidTypeMessage (expected received : List Char) : List Char :=
  if received = str "undefined" then str "Required"
  else str "Expected " ++ expected ++ str ", received " ++ received

/-- Serialisation of one zod issue with every field zod v3 puts in the issue
object: code, expected/received — for an enum issue the raw received value,
echoed again inside the message text — options, path and message. -/
def issueJson : ZodIssue → List Char
  | .invalidType expected received path =>
    str "\x7b \"code\": \"invalid_type\", \"expected\": " ++ quoteJ expected ++
    str ", \"received\": " ++ quoteJ received ++ str ", \"path\": " ++ renderPathJ path ++
    str ", \"message\": " ++ quoteJ (invalidTypeMessage expected received) ++ str " \x7d"
  | .invalidEnum received path =>
    str "\x7b \"received\": " ++ quoteJ received ++
    str ", \"code\": \"invalid_enum_value\", \"options\": [\"system\", \"user\", \"assistant\"], \"path\": " ++
    renderPathJ path ++
    str ", \"message\": \"Invalid enum value. Expected \x27system\x27 | \x27user\x27 | \x27assistant\x27, received \x27" ++
    received ++ str "\x27\" \x7d"

/-- Model of `ZodError.message` (the `e.message` the catch block of route.ts
lines 96-99 returns): zod v3 serialises the whole issue list with
JSON.stringify two-space indentation.  The indentation is flattened to one
line and string escaping elided, but every issue field zod emits — including
the raw received value of an enum issue and the path of the failing field —
appears in the message. -/
def zodMessage (issues : List ZodIssue) : List Char :=
  str "[" ++ joinWith (str ", ") (issues.map issueJson) ++ str "]"

/-- The environment variables read by route.ts; `none` means unset. -/
structure Env where
  ALLOWED_ORIGIN : Option (List Char)
  OPENAI_API_KEY : Option (List Char)
  NEXT_PUBLIC_CALENDLY_LINK : Option (List Char)
  LEAD_WEBHOOK_URL : Option (List Char)
deriving DecidableEq

/-- JS `process.env.X || d`: the default applies when the variable is unset
or set to the empty string (both falsy). -/
def orDefault (v : Option (List Char)) (d : List Char) : List Char :=
  match v with
  | some s => if s.isEmpty then d else s
  | none => d

/-- JS truthiness of an environment variable: set and non-empty. -/
def envTruthy (v : Option (List Char)) : Bool :=
  match v with
  | some s => !s.isEmpty
  | none => false

/-- Model of `ORIGIN` (route.ts line 7). -/
def ORIGIN (env : Env) : List Char :=
  orDefault env.ALLOWED_ORIGIN (str "https://www.martiviconsulting.com")

/-- The three CORS headers attached to every response (route.ts lines 8-12). -/
structure CORSHeaders where
  allowOrigin : List Char
  allowMethods : List Char
  allowHeaders : List Char
deriving DecidableEq

/-- Model of the `CORS` header constant (route.ts lines 8-12). -/
def CORS (env : Env) : CORSHeaders :=
  ⟨ORIGIN env, str "POST, OPTIONS, GET", str "Content-Type"⟩

/-- Model of `CALENDLY` (route.ts line 46). -/
def CALENDLY (env : Env) : List Char := orDefault env.NEXT_PUBLIC_CALENDLY_LINK (str "#")

/-- Model of `SYSTEM_PROMPT` (route.ts lines 47-55), a template literal with
the `CALENDLY` value interpolated. -/
def SYSTEM_PROMPT (env : Env) : List Char :=
  str "You are MARTIVI CONSULTING\u2019s assistant.\nGoals:\n1) Understand the user\u2019s need in 2\u20133 short questions max.\n2) Explain services clearly, concise, in the user\x27s language (Eng/Geo).\n3) Always offer: free 20-min discovery call (" ++
  CALENDLY env ++
  str "), or leave contacts.\n4) If unsure, ask 1 clarifying question; do not invent facts.\n5) Collect lead fields when the user shows purchase intent:\n   - Full name, Email, Company (optional), Budget range, Timeline, Country.\nTone: warm, expert, practical. Keep answers under 8 sentences unless asked."

/-- The prepended system message (route.ts line 68). -/
def systemMessage (env : Env) : ChatMessage := ⟨.system, SYSTEM_PROMPT env⟩

/-- Model of `messages.slice(-12)` (route.ts line 63): the suffix of the last
twelve messages (the whole list when it has at most twelve). -/
def trimmed (msgs : List ChatMessage) : List ChatMessage := msgs.drop (msgs.length - 12)

/-- The message list sent to the provider (route.ts line 68). -/
def providerMessages (env : Env) (msgs : List ChatMessage) : List ChatMessage :=
  systemMessage env :: trimmed msgs

/-- Model of JS `String.prototype.replace` with a plain string pattern: only
the first occurrence is replaced; the text is unchanged when the pattern is
absent. -/
def replaceFirst (pat rep : List Char) : List Char → List Char
  | [] => []
  | c :: rest =>
    if pat.isPrefixOf (c :: rest) then rep ++ (c :: rest).drop pat.length
    else c :: replaceFirst pat rep rest

/-- The literal placeholder `[#]` replaced at route.ts line 71. -/
def placeholder : List Char := str "[#]"

/-- Model of route.ts line 71: the reply text is the provider content (empty
when the provider returned no content) with the first `[#]` replaced by the
configured Calendly link. -/
def serverText (env : Env) (content : Option (List Char)) : List Char :=
  replaceFirst placeholder (CALENDLY env) (content.getD [])

/-- Characters matched by `[A-Z0-9._%+-]` under the `i` flag (route.ts line 74). -/
def localChar (c : Char) : Bool :=
  c.isAlpha || c.isDigit || c == '.' || c == '_' || c == '%' || c == '+' || c == '-'

/-- Characters matched by `[A-Z0-9.-]` under the `i` flag (route.ts line 74). -/
def domainChar (c : Char) : Bool := c.isAlpha || c.isDigit || c == '.' || c == '-'

/-- Two leading ASCII letters, the `[A-Z]\x7b2,\x7d` part of the email regex. -/
def twoAlpha : List Char → Bool
  | a :: b :: _ => a.isAlpha && b.isAlpha
  | _ => false

/-- Match `[A-Z0-9._%+-]+@` at the start of the input: consume local-part
characters (the flag records whether at least one was seen) up to a `@`,
returning the remainder after the `@`. -/
def stripLocal : List Char → Bool → Option (List Char)
  | [], _ => none
  | c :: rest, seen =>
    if c = '@' then (if seen then some rest else none)
    else if localChar c then stripLocal rest true else none

/-- Match `[A-Z0-9.-]+\.[A-Z]\x7b2,\x7d` at the start of the input, with the
backtracking of the regex engine: at every dot, either end the domain run
there (if at least one domain character was consumed and two letters follow)
or keep consuming. -/
def domTail : List Char → Bool → Bool
  | [], _ => false
  | c :: rest, seen =>
    (c == '.' && seen && twoAlpha rest) || (domainChar c && domTail rest true)

/-- Match of the email regex anchored at the start of the input. -/
def emailAt (s : List Char) : Bool :=
  match stripLocal s false with
  | some rest => domTail rest false
  | none => false

/-- Model of `/[A-Z0-9._%+-]+@[A-Z0-9.-]+\.[A-Z]\x7b2,\x7d/i.test(text)`
(route.ts line 74): the regex matches at some position of the text. -/
def emailTest : List Char → Bool
  | [] => false
  | c :: rest => emailAt (c :: rest) || emailTest rest

/-- Declarative reading of the spec sentence for lead detection: the text
contains a local part of allowed characters, then `@`, then a domain with at
least one dot and a top-level segment of two or more letters (so two letters
directly after a dot), case-insensitively.  Stated following the words of the
spec, to be compared with the executable `emailTest` taken from the code. -/
def emailPatternSpec (s : List Char) : Prop :=
  ∃ pre l d a b post, s = pre ++ (l ++ '@' :: (d ++ '.' :: a :: b :: post)) ∧
    l ≠ [] ∧ (∀ c ∈ l, localChar c = true) ∧ d ≠ [] ∧ (∀ c ∈ d, domainChar c = true) ∧
    a.isAlpha = true ∧ b.isAlpha = true

/-- JS truthiness of `lead && lead.email` (route.ts line 74): the lead record
is supplied and its email field is a non-empty string. -/
def leadHasEmail : Option Lead → Bool
  | none => false
  | some l =>
    match l.email with
    | some e => !e.isEmpty
    | none => false

/-- The JSON body of the lead webhook fetch (route.ts lines 78-83).  The
field `whenAt` models the JSON field named `when` (that name is taken by a
core library function). -/
structure WebhookPayload where
  source : List Char
  lead : Lead
  rawReply : List Char
  whenAt : List Char
deriving DecidableEq

/-- The JSON response body: `\x7breply\x7d` on success, `\x7berror\x7d` on failure,
never both (route.ts lines 95, 99). -/
inductive RespBody where
  | reply (text : List Char)
  | error (msg : List Char)
deriving DecidableEq

/-- Whether a response body is the success shape. -/
def RespBody.isReply : RespBody → Bool
  | .reply _ => true
  | .error _ => false

/-- Everything observable about one handled POST request: the HTTP response
(status, body, CORS headers) plus the outbound calls attempted (each provider
call with the message list sent, each webhook call with its payload) and the
console error log. -/
structure PostResult where
  status : Nat
  body : RespBody
  cors : CORSHeaders
  providerRequests : List (List ChatMessage)
  webhookCalls : List WebhookPayload
  logged : List (List Char)
deriving DecidableEq

/-- An incoming HTTP request: its Origin header (never read by the code) and
the result of `req.json()` (`Except.error` models a JSON syntax error with
the message thrown by the runtime). -/
structure Request where
  origin : Option (List Char)
  body : Except (List Char) Json

/-- Status chosen by the catch block (route.ts line 98): 500 when the thrown
message contains `OPENAI_API_KEY`, else 400. -/
def statusOf (msg : List Char) : Nat :=
  if containsSub (str "OPENAI_API_KEY") msg then 500 else 400

/-- The error response built by the catch block (route.ts lines 96-99). -/
def errResp (env : Env) (msg : List Char) (pr : List (List ChatMessage)) : PostResult :=
  ⟨statusOf msg, .error msg, CORS env, pr, [], []⟩

/-- Model of the POST handler (route.ts lines 57-101).  The pipeline in
source order: parse the body json, validate with `BodySchema`, require the
provider credential, call the provider, substitute the `[#]` placeholder,
evaluate the lead heuristic, optionally fire one webhook call whose failure
is caught and logged, and answer `\x7breply\x7d` with CORS headers.  `provider`
is the outcome of the OpenAI call, `webhookResult` the outcome of the webhook
fetch, `now` the `new Date().toISOString()` timestamp. -/
def POST (env : Env) (req : Request) (provider : Except (List Char) (Option (List Char)))
    (webhookResult : Except (List Char) Unit) (now : List Char) : PostResult :=
  match req.body with
  | .error m => errResp env m []
  | .ok j =>
    match bodyParse j with
    | .error issues => errResp env (zodMessage issues) []
    | .ok pl =>
      if envTruthy env.OPENAI_API_KEY then
        match provider with
        | .error m => errResp env m [providerMessages env pl.messages]
        | .ok content =>
          let text := serverText env content
          let maybeLead := emailTest text || leadHasEmail pl.lead
          let calls : List WebhookPayload :=
            if maybeLead && envTruthy env.LEAD_WEBHOOK_URL then
              [⟨str "chatbot", pl.lead.getD emptyLead, text, now⟩]
            else []
          let logs : List (List Char) :=
            match calls, webhookResult with
            | _ :: _, .error e => [str "Lead webhook error: " ++ e]
            | _, _ => []
          ⟨200, .reply text, CORS env, [providerMessages env pl.messages], calls, logs⟩
      else errResp env (str "OPENAI_API_KEY missing") []

/-- Model of the OPTIONS handler (route.ts lines 14-16): 204, empty body,
CORS headers. -/
def OPTIONS (env : Env) (_req : Request) : Nat × CORSHeaders := (204, CORS env)

/-- Model of the GET handler (route.ts lines 17-19): 200, `\x7bok:true\x7d`,
CORS headers. -/
def GET (env : Env) (_req : Request) : (Nat × Json) × CORSHeaders :=
  ((200, Json.obj [(str "ok", Json.bool true)]), CORS env)

/-- The reply text of a success response (empty for error responses). -/
def replyTextOf (r : PostResult) : List Char :=
  match r.body with
  | .reply t => t
  | .error _ => []

/-- The error message of a failure response (empty for success responses). -/
def errMsgOf (r : PostResult) : List Char :=
  match r.body with
  | .reply _ => []
  | .error m => m

/-- The JS whitespace set (`String.prototype.trim` and the regex class
`\s`): tab, LF, VT, FF, CR, space, NBSP, Ogham space mark, the Unicode
space separators U+2000-200A, LS, PS, narrow NBSP, medium mathematical
space, ideographic space and ZWNBSP. -/
def jsWhitespace (c : Char) : Bool :=
  c == ' ' || c == '\t' || c == '\n' || c == '\u000B' || c == '\u000C' || c == '\r' ||
  c == '\u00A0' || c == '\u1680' ||
  (decide ('\u2000' ≤ c) && decide (c ≤ '\u200A')) ||
  c == '\u2028' || c == '\u2029' || c == '\u202F' || c == '\u205F' || c == '\u3000' ||
  c == '\uFEFF'

/-- Model of JS `String.prototype.trim`. -/
def jsTrim (s : List Char) : List Char :=
  ((s.dropWhile jsWhitespace).reverse.dropWhile jsWhitespace).reverse

/-- Case-insensitive literal match at the start of the input (the pattern is
given lowercase); returns the remainder. -/
def matchCI : List Char → List Char → Option (List Char)
  | [], s => some s
  | _ :: _, [] => none
  | p :: ps, c :: cs => if c.toLower = p then matchCI ps cs else none

/-- Match `https?:\/\/calendly\.com` case-insensitively at the start of the
input, with the optional `s` tried greedily first. -/
def matchCalendlyHost (s : List Char) : Option (List Char) :=
  match matchCI (str "http") s with
  | none => none
  | some r1 =>
    match matchCI (str "s://calendly.com") r1 with
    | some r2 => some r2
    | none => matchCI (str "://calendly.com") r1

/-- Match `\(https?:\/\/calendly\.com[^\)]*\)` at the start of the input:
an opening paren, the host, then everything up to the next closing paren. -/
def matchParenPart (s : List Char) : Option (List Char) :=
  match s with
  | '(' :: rest =>
    match matchCalendlyHost rest with
    | none => none
    | some r =>
      match r.dropWhile (fun c => c != ')') with
      | ')' :: tail => some tail
      | _ => none
  | _ => none

/-- The lazy `.*?\]\(...\)` scan of the markdown-link regex: at every
position first try to close the bracket and match the paren part, otherwise
consume one more non-newline character (`.` does not match line breaks). -/
def lazyScanMd : List Char → Option (List Char)
  | [] => none
  | c :: rest =>
    match (if c = ']' then matchParenPart rest else none) with
    | some r => some r
    | none =>
      if c = '\n' ∨ c = '\r' ∨ c = '\u2028' ∨ c = '\u2029' then none else lazyScanMd rest

/-- Match of `/\[.*?\]\(https?:\/\/calendly\.com[^\)]*\)/i` at the start of
the input (widget, route.ts bundle line 153). -/
def tryMarkdownLink (s : List Char) : Option (List Char) :=
  match s with
  | '[' :: rest => lazyScanMd rest
  | _ => none

/-- Match of `/https?:\/\/calendly\.com[^\s)]+/i` at the start of the input
(widget, route.ts bundle line 154): the host followed by one or more
characters that are neither whitespace nor a closing paren. -/
def tryBareCalendly (s : List Char) : Option (List Char) :=
  match matchCalendlyHost s with
  | none => none
  | some r =>
    let run := r.takeWhile (fun c => !(jsWhitespace c || c == ')'))
    if run.isEmpty then none else some (r.drop run.length)

/-- Global regex replacement by the empty string: scan left to right, skip
over every match, keep every unmatched character.  Fuel-based; the fuel
`length + 1` suffices because both matchers consume at least one character. -/
def replaceAllCore (attempt : List Char → Option (List Char)) : Nat → List Char → List Char
  | 0, s => s
  | _, [] => []
  | fuel + 1, c :: rest =>
    match attempt (c :: rest) with
    | some remainder => replaceAllCore attempt fuel remainder
    | none => c :: replaceAllCore attempt fuel rest

/-- Global replacement by the empty string, model of `.replace(re, "")` with
a global regex. -/
def replaceAll (attempt : List Char → Option (List Char)) (s : List Char) : List Char :=
  replaceAllCore attempt (s.length + 1) s

/-- The widget cleaning pass (lines 150-155 of the bundle): strip markdown
Calendly links, strip bare Calendly URLs, then trim. -/
def cleanReply (raw : List Char) : List Char :=
  jsTrim (replaceAll tryBareCalendly (replaceAll tryMarkdownLink raw))

/-- The ChatWidget state: visibility flag, message history, input draft, and
the in-flight loading flag. -/
structure WidgetState where
  isOpen : Bool
  messages : List ChatMessage
  input : List Char
  loading : Bool
deriving DecidableEq

/-- Everything observable about one `sendMessage` invocation: the final
widget state, whether a network request was sent and with which history, and
the console errors logged. -/
structure SendResult where
  state : WidgetState
  requestSent : Bool
  sentMessages : Option (List ChatMessage)
  loggedErrors : List (List Char)
deriving DecidableEq

/-- Model of the widget `sendMessage` function (lines 132-164 of the bundle).
Empty or whitespace-only input returns immediately.  Otherwise the user
message is appended, the draft cleared, the loading flag set, and the fetch
issued; `net` is the outcome of `fetch` plus `res.json()`.  On a JSON value,
`data.reply` is read (a thrown TypeError on `null` lands in the catch block);
non-string replies become the empty string; the cleaned reply is appended.
Errors are logged.  The `finally` block clears the loading flag in every
path. -/
def sendMessage (s : WidgetState) (net : Except (List Char) Json) : SendResult :=
  if (jsTrim s.input).isEmpty then ⟨s, false, none, []⟩
  else
    let userMsg : ChatMessage := ⟨.user, s.input⟩
    let newMessages := s.messages ++ [userMsg]
    match net with
    | .ok Json.null =>
      ⟨⟨s.isOpen, newMessages, [], false⟩, true, some newMessages,
        [str "TypeError: Cannot read properties of null (reading \x27reply\x27)"]⟩
    | .ok data =>
      let rawReply : List Char :=
        match data with
        | .obj fs =>
          match jlookup (str "reply") fs with
          | some (.str t) => t
          | _ => []
        | _ => []
      let botMsg : ChatMessage := ⟨.assistant, cleanReply rawReply⟩
      ⟨⟨s.isOpen, newMessages ++ [botMsg], [], false⟩, true, some newMessages, []⟩
    | .error e => ⟨⟨s.isOpen, newMessages, [], false⟩, true, some newMessages, [e]⟩

/-- The executable substring test agrees with the infix relation. -/
theorem containsSub_iff (pat s : List Char) : containsSub pat s = true ↔ pat <:+: s := by
  induction s with
  | nil =>
    simp only [containsSub, List.isEmpty_iff]
    constructor
    · rintro rfl; exact List.infix_rfl
    · exact List.eq_nil_of_infix_nil
  | cons c rest ih =>
    simp only [containsSub, Bool.or_eq_true, ih, List.infix_cons_iff]
    constructor
    · rintro (h | h)
      · exact Or.inl (List.isPrefixOf_iff_prefix.mp h)
      · exact Or.inr h
    · rintro (h | h)
      · exact Or.inl (List.isPrefixOf_iff_prefix.mpr h)
      · exact Or.inr h

/-- The placeholder as an explicit character list. -/
theorem placeholder_eq : placeholder = ['[', '#', ']'] := rfl

/-- Unfolding `replaceFirst` at a non-matching head character. -/
theorem replaceFirst_cons_ne {pat rep : List Char} {c : Char} {rest : List Char}
    (h : ¬ pat.isPrefixOf (c :: rest) = true) :
    replaceFirst pat rep (c :: rest) = c :: replaceFirst pat rep rest := by
  rw [replaceFirst, if_neg h]

/-- The placeholder cannot start at a character other than an open bracket. -/
theorem not_prefixOf_placeholder {c : Char} (h : c ≠ '[') (rest : List Char) :
    ¬ placeholder.isPrefixOf (c :: rest) = true := by
  intro hp
  rcases List.isPrefixOf_iff_prefix.mp hp with ⟨t, ht⟩
  rw [placeholder_eq] at ht
  injection ht with h1 _
  exact h h1.symm

/-- Text before the first placeholder occurrence passes through `replaceFirst`
untouched, provided it contains no open bracket. -/
theorem replaceFirst_append_left {rep t : List Char} :
    ∀ {a : List Char}, '[' ∉ a →
      replaceFirst placeholder rep (a ++ t) = a ++ replaceFirst placeholder rep t := by
  intro a
  induction a with
  | nil => intro _; rfl
  | cons c a2 ih =>
    intro h
    have hc : c ≠ '[' := by
      intro hh
      exact h (by rw [← hh]; exact List.mem_cons_self c a2)
    rw [List.cons_append, replaceFirst_cons_ne (not_prefixOf_placeholder hc _),
      ih (fun hm => h (List.mem_cons_of_mem c hm))]
    rfl

/-- Unfolding `replaceFirst` at a position where the placeholder matches. -/
theorem replaceFirst_matches_head {rep s : List Char}
    (h : placeholder.isPrefixOf s = true) :
    replaceFirst placeholder rep s = rep ++ s.drop placeholder.length := by
  cases s with
  | nil =>
    have := List.prefix_nil.mp (List.isPrefixOf_iff_prefix.mp h)
    exact absurd this (by decide)
  | cons c rest => rw [replaceFirst, if_pos h]

/-- Replacement at the exact occurrence of the placeholder. -/
theorem replaceFirst_at {rep post : List Char} :
    replaceFirst placeholder rep (placeholder ++ post) = rep ++ post := by
  rw [replaceFirst_matches_head (List.isPrefixOf_iff_prefix.mpr (List.prefix_append _ _)),
    List.drop_left]

/-- An infix avoiding every character of the left part of an append lies in
the right part. -/
theorem infix_drop_left {sub d : List Char} :
    ∀ {a : List Char}, sub <:+: a ++ d → (∀ c ∈ a, c ∉ sub) → sub <:+: d := by
  intro a
  induction a with
  | nil => intro h _; simpa using h
  | cons x a2 ih =>
    intro h hdis
    rcases List.infix_cons_iff.mp (by simpa using h) with hpre | hinf
    · cases sub with
      | nil => exact List.nil_infix
      | cons y sub2 =>
        rcases List.cons_prefix_cons.mp hpre with ⟨hyx, _⟩
        exact absurd (by rw [hyx]; exact List.mem_cons_self x sub2 : x ∈ y :: sub2)
          (hdis x (List.mem_cons_self x a2))
    · exact ih hinf (fun c hc => hdis c (List.mem_cons_of_mem x hc))

/-- Substrings that avoid the placeholder characters survive the placeholder
substitution of route.ts line 71. -/
theorem infix_replaceFirst {sub rep : List Char}
    (h1 : '[' ∉ sub) (h2 : '#' ∉ sub) (h3 : ']' ∉ sub) :
    ∀ {s : List Char}, sub <:+: s → sub <:+: replaceFirst placeholder rep s := by
  intro s
  induction s with
  | nil =>
    intro h
    simpa [replaceFirst] using h
  | cons c rest ih =>
    intro h
    by_cases hp : placeholder.isPrefixOf (c :: rest) = true
    · rw [replaceFirst_matches_head hp]
      rcases List.isPrefixOf_iff_prefix.mp hp with ⟨t, ht⟩
      have hd : (c :: rest).drop placeholder.length = t := by
        rw [← ht, List.drop_left]
      rw [hd]
      have hsub : sub <:+: t := by
        apply infix_drop_left (a := placeholder)
        · rw [ht]; exact h
        · intro x hx
          rw [placeholder_eq] at hx
          simp only [List.mem_cons, List.mem_singleton, List.not_mem_nil, or_false] at hx
          rcases hx with rfl | rfl | rfl
          · exact h1
          · exact h2
          · exact h3
      exact hsub.trans (List.suffix_append rep t).isInfix
    · rw [replaceFirst_cons_ne hp]
      rcases List.infix_cons_iff.mp h with hpre | hinf
      · cases sub with
        | nil => exact List.nil_infix
        | cons y sub2 =>
          rcases List.cons_prefix_cons.mp hpre with ⟨hyc, hsub2⟩
          rcases hsub2 with ⟨tail, htail⟩
          have hnb : '[' ∉ sub2 := fun hm => h1 (List.mem_cons_of_mem _ hm)
          rw [← htail, replaceFirst_append_left hnb]
          exact (List.cons_prefix_cons.mpr ⟨hyc, List.prefix_append sub2 _⟩).isInfix
      · exact List.infix_cons (ih hinf)

/-- A local-part character is never the at sign. -/
theorem localChar_ne_at {c : Char} (h : localChar c = true) : c ≠ '@' := by
  intro hh
  rw [hh] at h
  exact absurd h (by decide)

/-- Soundness of the local-part scanner: a successful scan decomposes the
input into a run of local characters (nonempty unless already seen), the at
sign, and the rest. -/
theorem stripLocal_sound :
    ∀ {s : List Char} {seen : Bool} {rest : List Char}, stripLocal s seen = some rest →
      ∃ l, s = l ++ '@' :: rest ∧ (∀ c ∈ l, localChar c = true) ∧ (seen = true ∨ l ≠ []) := by
  intro s
  induction s with
  | nil => intro seen rest h; simp [stripLocal] at h
  | cons c s2 ih =>
    intro seen rest h
    rw [stripLocal] at h
    split_ifs at h with hat hseen hloc
    · injection h with h2
      refine ⟨[], ?_, fun x hx => absurd hx (List.not_mem_nil x), Or.inl hseen⟩
      rw [hat, h2]
      rfl
    · rcases ih h with ⟨l2, heq, hall, _⟩
      refine ⟨c :: l2, by rw [List.cons_append, heq], ?_, Or.inr (by simp)⟩
      intro x hx
      rcases List.mem_cons.mp hx with rfl | hx2
      · exact hloc
      · exact hall x hx2

/-- Completeness of the local-part scanner. -/
theorem stripLocal_complete :
    ∀ (l rest : List Char) (seen : Bool), (∀ c ∈ l, localChar c = true) →
      (seen = true ∨ l ≠ []) → stripLocal (l ++ '@' :: rest) seen = some rest := by
  intro l
  induction l with
  | nil =>
    intro rest seen _ hok
    have hseen : seen = true := by
      rcases hok with h | h
      · exact h
      · exact absurd rfl h
    rw [List.nil_append, stripLocal, if_pos rfl, if_pos hseen]
  | cons c l2 ih =>
    intro rest seen hall _
    have hc : localChar c = true := hall c (List.mem_cons_self c l2)
    rw [List.cons_append, stripLocal, if_neg (localChar_ne_at hc), if_pos hc]
    exact ih rest true (fun x hx => hall x (List.mem_cons_of_mem c hx)) (Or.inl rfl)

/-- Success of `twoAlpha` exposes two leading letters. -/
theorem twoAlpha_sound {s : List Char} (h : twoAlpha s = true) :
    ∃ a b post, s = a :: b :: post ∧ a.isAlpha = true ∧ b.isAlpha = true := by
  cases s with
  | nil => simp [twoAlpha] at h
  | cons a s2 =>
    cases s2 with
    | nil => simp [twoAlpha] at h
    | cons b post =>
      rw [twoAlpha, Bool.and_eq_true] at h
      exact ⟨a, b, post, rfl, h.1, h.2⟩

/-- Soundness of the domain scanner: success decomposes the input into a run
of domain characters (nonempty unless already seen), a dot, and two letters. -/
theorem domTail_sound :
    ∀ {s : List Char} {seen : Bool}, domTail s seen = true →
      ∃ d a b post, s = d ++ '.' :: a :: b :: post ∧ (∀ c ∈ d, domainChar c = true) ∧
        (seen = true ∨ d ≠ []) ∧ a.isAlpha = true ∧ b.isAlpha = true := by
  intro s
  induction s with
  | nil => intro seen h; simp [domTail] at h
  | cons c s2 ih =>
    intro seen h
    rw [domTail, Bool.or_eq_true, Bool.and_eq_true, Bool.and_eq_true, Bool.and_eq_true] at h
    rcases h with ⟨⟨hdot, hseen⟩, hta⟩ | ⟨hdc, hdt⟩
    · have hdot2 : c = '.' := by simpa using hdot
      rcases twoAlpha_sound hta with ⟨a, b, post, rfl, ha, hb⟩
      exact ⟨[], a, b, post, by simp [hdot2], fun x hx => absurd hx (List.not_mem_nil x),
        Or.inl hseen, ha, hb⟩
    · rcases ih hdt with ⟨d, a, b, post, heq, hall, _, ha, hb⟩
      refine ⟨c :: d, a, b, post, by simp [heq], ?_, Or.inr (by simp), ha, hb⟩
      intro x hx
      rcases List.mem_cons.mp hx with rfl | hx2
      · exact hdc
      · exact hall x hx2

/-- Completeness of the domain scanner. -/
theorem domTail_complete :
    ∀ (d : List Char) (seen : Bool) (a b : Char) (post : List Char),
      (∀ c ∈ d, domainChar c = true) → (seen = true ∨ d ≠ []) →
      a.isAlpha = true → b.isAlpha = true →
      domTail (d ++ '.' :: a :: b :: post) seen = true := by
  intro d
  induction d with
  | nil =>
    intro seen a b post _ hok ha hb
    have hseen : seen = true := by
      rcases hok with h | h
      · exact h
      · exact absurd rfl h
    rw [List.nil_append, domTail, hseen, Bool.or_eq_true]
    left
    simp [twoAlpha, ha, hb]
  | cons c d2 ih =>
    intro seen a b post hall _ ha hb
    rw [List.cons_append, domTail, Bool.or_eq_true]
    right
    rw [Bool.and_eq_true]
    exact ⟨hall c (List.mem_cons_self c d2),
      ih true a b post (fun x hx => hall x (List.mem_cons_of_mem c hx)) (Or.inl rfl) ha hb⟩

/-- Soundness of the anchored email match. -/
theorem emailAt_sound {s : List Char} (h : emailAt s = true) :
    ∃ l d a b post, s = l ++ '@' :: (d ++ '.' :: a :: b :: post) ∧
      l ≠ [] ∧ (∀ c ∈ l, localChar c = true) ∧ d ≠ [] ∧ (∀ c ∈ d, domainChar c = true) ∧
      a.isAlpha = true ∧ b.isAlpha = true := by
  unfold emailAt at h
  cases hsl : stripLocal s false with
  | none => rw [hsl] at h; simp at h
  | some rest =>
    rw [hsl] at h
    rcases stripLocal_sound hsl with ⟨l, heq, hlall, hlne⟩
    rcases domTail_sound h with ⟨d, a, b, post, heq2, hdall, hdne, ha, hb⟩
    refine ⟨l, d, a, b, post, by rw [heq, heq2], ?_, hlall, ?_, hdall, ha, hb⟩
    · rcases hlne with h | h
      · exact absurd h (by decide)
      · exact h
    · rcases hdne with h | h
      · exact absurd h (by decide)
      · exact h

/-- The executable regex test implies the declarative email pattern. -/
theorem emailTest_sound : ∀ {s : List Char}, emailTest s = true → emailPatternSpec s := by
  intro s
  induction s with
  | nil => intro h; simp [emailTest] at h
  | cons c rest ih =>
    intro h
    rw [emailTest, Bool.or_eq_true] at h
    rcases h with h1 | h2
    · rcases emailAt_sound h1 with ⟨l, d, a, b, post, heq, r1, r2, r3, r4, r5, r6⟩
      exact ⟨[], l, d, a, b, post, by simpa using heq, r1, r2, r3, r4, r5, r6⟩
    · rcases ih h2 with ⟨pre, l, d, a, b, post, heq, r1, r2, r3, r4, r5, r6⟩
      exact ⟨c :: pre, l, d, a, b, post, by simp [heq], r1, r2, r3, r4, r5, r6⟩

/-- The declarative email pattern implies the executable regex test. -/
theorem emailTest_complete : ∀ {s : List Char}, emailPatternSpec s → emailTest s = true := by
  intro s h
  rcases h with ⟨pre, l, d, a, b, post, heq, hlne, hlall, hdne, hdall, ha, hb⟩
  subst heq
  induction pre with
  | nil =>
    cases l with
    | nil => exact absurd rfl hlne
    | cons lc l2 =>
      rw [List.nil_append, List.cons_append, emailTest, Bool.or_eq_true]
      left
      unfold emailAt
      rw [show stripLocal (lc :: (l2 ++ '@' :: (d ++ '.' :: a :: b :: post))) false =
          some (d ++ '.' :: a :: b :: post) from by
        rw [← List.cons_append]
        exact stripLocal_complete (lc :: l2) (d ++ '.' :: a :: b :: post) false hlall
          (Or.inr hlne)]
      exact domTail_complete d false a b post hdall (Or.inr hdne) ha hb
  | cons x pre2 ih =>
    rw [List.cons_append, emailTest, Bool.or_eq_true]
    right
    exact ih

/-- The email regex test of route.ts line 74 succeeds exactly on texts
matching the declarative email pattern of the spec. -/
theorem emailTest_iff (s : List Char) : emailTest s = true ↔ emailPatternSpec s :=
  ⟨emailTest_sound, emailTest_complete⟩

/-- C3: for every valid payload the provider is called exactly once with the
fixed system instruction prepended (not counted in the window) followed by
`messages.slice(-12)`: all messages in original order when there are at most
twelve, otherwise exactly the last twelve in original order with the earlier
prefix dropped. -/
theorem provider_window_last_twelve (env : Env) (o : Option (List Char)) (j : Json)
    (pl : Payload) (prov : Except (List Char) (Option (List Char)))
    (w : Except (List Char) Unit) (now : List Char)
    (hparse : bodyParse j = .ok pl) (hkey : envTruthy env.OPENAI_API_KEY = true) :
    (POST env ⟨o, .ok j⟩ prov w now).providerRequests =
      [systemMessage env :: trimmed pl.messages] ∧
    (pl.messages.length ≤ 12 → trimmed pl.messages = pl.messages) ∧
    (12 < pl.messages.length → (trimmed pl.messages).length = 12 ∧
      pl.messages.take (pl.messages.length - 12) ++ trimmed pl.messages = pl.messages) := by
  refine ⟨?_, ?_, ?_⟩
  · cases prov with
    | error m => simp [POST, hparse, hkey, errResp, providerMessages]
    | ok content => simp [POST, hparse, hkey, providerMessages]
  · intro hle
    unfold trimmed
    rw [Nat.sub_eq_zero_of_le hle, List.drop_zero]
  · intro hgt
    constructor
    · unfold trimmed
      rw [List.length_drop]
      omega
    · exact List.take_append_drop _ _

/-- Witness for C3: a three-message history is forwarded whole; a
fifteen-message history loses exactly its first three messages, and the
provider request is the system message followed by the window. -/
theorem provider_window_last_twelve_witness :
    (POST ⟨none, some (str "k"), none, none⟩
        ⟨none, .ok (Json.obj [(str "messages", Json.arr [Json.obj [(str "role", Json.str (str "user")), (str "content", Json.str (str "1"))], Json.obj [(str "role", Json.str (str "user")), (str "content", Json.str (str "2"))], Json.obj [(str "role", Json.str (str "user")), (str "content", Json.str (str "3"))], Json.obj [(str "role", Json.str (str "user")), (str "content", Json.str (str "4"))], Json.obj [(str "role", Json.str (str "user")), (str "content", Json.str (str "5"))], Json.obj [(str "role", Json.str (str "user")), (str "content", Json.str (str "6"))], Json.obj [(str "role", Json.str (str "user")), (str "content", Json.str (str "7"))], Json.obj [(str "role", Json.str (str "user")), (str "content", Json.str (str "8"))], Json.obj [(str "role", Json.str (str "user")), (str "content", Json.str (str "9"))], Json.obj [(str "role", Json.str (str "user")), (str "content", Json.str (str "10"))], Json.obj [(str "role", Json.str (str "user")), (str "content", Json.str (str "11"))], Json.obj [(str "role", Json.str (str "user")), (str "content", Json.str (str "12"))], Json.obj [(str "role", Json.str (str "user")), (str "content", Json.str (str "13"))], Json.obj [(str "role", Json.str (str "user")), (str "content", Json.str (str "14"))], Json.obj [(str "role", Json.str (str "user")), (str "content", Json.str (str "15"))]])])⟩
        (.ok (some (str "hello"))) (.ok ()) []).providerRequests =
      [systemMessage ⟨none, some (str "k"), none, none⟩ ::
        trimmed [⟨.user, str "1"⟩, ⟨.user, str "2"⟩, ⟨.user, str "3"⟩, ⟨.user, str "4"⟩, ⟨.user, str "5"⟩, ⟨.user, str "6"⟩, ⟨.user, str "7"⟩, ⟨.user, str "8"⟩, ⟨.user, str "9"⟩, ⟨.user, str "10"⟩, ⟨.user, str "11"⟩, ⟨.user, str "12"⟩, ⟨.user, str "13"⟩, ⟨.user, str "14"⟩, ⟨.user, str "15"⟩]] ∧
    (trimmed [⟨.user, str "1"⟩, ⟨.user, str "2"⟩, ⟨.user, str "3"⟩, ⟨.user, str "4"⟩, ⟨.user, str "5"⟩, ⟨.user, str "6"⟩, ⟨.user, str "7"⟩, ⟨.user, str "8"⟩, ⟨.user, str "9"⟩, ⟨.user, str "10"⟩, ⟨.user, str "11"⟩, ⟨.user, str "12"⟩, ⟨.user, str "13"⟩, ⟨.user, str "14"⟩, ⟨.user, str "15"⟩]).length = 12 ∧
    trimmed ([⟨.user, str "1"⟩, ⟨.user, str "2"⟩, ⟨.user, str "3"⟩, ⟨.user, str "4"⟩, ⟨.user, str "5"⟩, ⟨.user, str "6"⟩, ⟨.user, str "7"⟩, ⟨.user, str "8"⟩, ⟨.user, str "9"⟩, ⟨.user, str "10"⟩, ⟨.user, str "11"⟩, ⟨.user, str "12"⟩, ⟨.user, str "13"⟩, ⟨.user, str "14"⟩, ⟨.user, str "15"⟩] : List ChatMessage) = [⟨.user, str "4"⟩, ⟨.user, str "5"⟩, ⟨.user, str "6"⟩, ⟨.user, str "7"⟩, ⟨.user, str "8"⟩, ⟨.user, str "9"⟩, ⟨.user, str "10"⟩, ⟨.user, str "11"⟩, ⟨.user, str "12"⟩, ⟨.user, str "13"⟩, ⟨.user, str "14"⟩, ⟨.user, str "15"⟩] ∧
    trimmed ([⟨.user, str "1"⟩, ⟨.user, str "2"⟩, ⟨.user, str "3"⟩] : List ChatMessage) = [⟨.user, str "1"⟩, ⟨.user, str "2"⟩, ⟨.user, str "3"⟩] := by
  have hl := provider_window_last_twelve ⟨none, some (str "k"), none, none⟩ none
    (Json.obj [(str "messages", Json.arr [Json.obj [(str "role", Json.str (str "user")), (str "content", Json.str (str "1"))], Json.obj [(str "role", Json.str (str "user")), (str "content", Json.str (str "2"))], Json.obj [(str "role", Json.str (str "user")), (str "content", Json.str (str "3"))], Json.obj [(str "role", Json.str (str "user")), (str "content", Json.str (str "4"))], Json.obj [(str "role", Json.str (str "user")), (str "content", Json.str (str "5"))], Json.obj [(str "role", Json.str (str "user")), (str "content", Json.str (str "6"))], Json.obj [(str "role", Json.str (str "user")), (str "content", Json.str (str "7"))], Json.obj [(str "role", Json.str (str "user")), (str "content", Json.str (str "8"))], Json.obj [(str "role", Json.str (str "user")), (str "content", Json.str (str "9"))], Json.obj [(str "role", Json.str (str "user")), (str "content", Json.str (str "10"))], Json.obj [(str "role", Json.str (str "user")), (str "content", Json.str (str "11"))], Json.obj [(str "role", Json.str (str "user")), (str "content", Json.str (str "12"))], Json.obj [(str "role", Json.str (str "user")), (str "content", Json.str (str "13"))], Json.obj [(str "role", Json.str (str "user")), (str "content", Json.str (str "14"))], Json.obj [(str "role", Json.str (str "user")), (str "content", Json.str (str "15"))]])])
    ⟨[⟨.user, str "1"⟩, ⟨.user, str "2"⟩, ⟨.user, str "3"⟩, ⟨.user, str "4"⟩, ⟨.user, str "5"⟩, ⟨.user, str "6"⟩, ⟨.user, str "7"⟩, ⟨.user, str "8"⟩, ⟨.user, str "9"⟩, ⟨.user, str "10"⟩, ⟨.user, str "11"⟩, ⟨.user, str "12"⟩, ⟨.user, str "13"⟩, ⟨.user, str "14"⟩, ⟨.user, str "15"⟩], none⟩ (.ok (some (str "hello"))) (.ok ()) [] rfl rfl
  have hs := provider_window_last_twelve ⟨none, some (str "k"), none, none⟩ none
    (Json.obj [(str "messages", Json.arr [Json.obj [(str "role", Json.str (str "user")), (str "content", Json.str (str "1"))], Json.obj [(str "role", Json.str (str "user")), (str "content", Json.str (str "2"))], Json.obj [(str "role", Json.str (str "user")), (str "content", Json.str (str "3"))]])])
    ⟨[⟨.user, str "1"⟩, ⟨.user, str "2"⟩, ⟨.user, str "3"⟩], none⟩ (.ok (some (str "hello"))) (.ok ()) [] rfl rfl
  refine ⟨hl.1, (hl.2.2 (by decide)).1, ?_, hs.2.1 (by decide)⟩
  have happ := (hl.2.2 (by decide)).2
  rw [show ([⟨.user, str "1"⟩, ⟨.user, str "2"⟩, ⟨.user, str "3"⟩, ⟨.user, str "4"⟩, ⟨.user, str "5"⟩, ⟨.user, str "6"⟩, ⟨.user, str "7"⟩, ⟨.user, str "8"⟩, ⟨.user, str "9"⟩, ⟨.user, str "10"⟩, ⟨.user, str "11"⟩, ⟨.user, str "12"⟩, ⟨.user, str "13"⟩, ⟨.user, str "14"⟩, ⟨.user, str "15"⟩] : List ChatMessage).take
      (([⟨.user, str "1"⟩, ⟨.user, str "2"⟩, ⟨.user, str "3"⟩, ⟨.user, str "4"⟩, ⟨.user, str "5"⟩, ⟨.user, str "6"⟩, ⟨.user, str "7"⟩, ⟨.user, str "8"⟩, ⟨.user, str "9"⟩, ⟨.user, str "10"⟩, ⟨.user, str "11"⟩, ⟨.user, str "12"⟩, ⟨.user, str "13"⟩, ⟨.user, str "14"⟩, ⟨.user, str "15"⟩] : List ChatMessage).length - 12) = [⟨.user, str "1"⟩, ⟨.user, str "2"⟩, ⟨.user, str "3"⟩] from by decide] at happ
  have : ([⟨.user, str "1"⟩, ⟨.user, str "2"⟩, ⟨.user, str "3"⟩] : List ChatMessage) ++ trimmed [⟨.user, str "1"⟩, ⟨.user, str "2"⟩, ⟨.user, str "3"⟩, ⟨.user, str "4"⟩, ⟨.user, str "5"⟩, ⟨.user, str "6"⟩, ⟨.user, str "7"⟩, ⟨.user, str "8"⟩, ⟨.user, str "9"⟩, ⟨.user, str "10"⟩, ⟨.user, str "11"⟩, ⟨.user, str "12"⟩, ⟨.user, str "13"⟩, ⟨.user, str "14"⟩, ⟨.user, str "15"⟩] =
      [⟨.user, str "1"⟩, ⟨.user, str "2"⟩, ⟨.user, str "3"⟩] ++ [⟨.user, str "4"⟩, ⟨.user, str "5"⟩, ⟨.user, str "6"⟩, ⟨.user, str "7"⟩, ⟨.user, str "8"⟩, ⟨.user, str "9"⟩, ⟨.user, str "10"⟩, ⟨.user, str "11"⟩, ⟨.user, str "12"⟩, ⟨.user, str "13"⟩, ⟨.user, str "14"⟩, ⟨.user, str "15"⟩] := by
    rw [happ]
    decide
  exact List.append_cancel_left this

/-- C4 counterexample: with no origin configuration at all and a request from
a foreign origin, the Access-Control-Allow-Origin header is the hard-coded
production origin: it neither allows any origin (it is not the wildcard) nor
echoes the request origin, refuting the claimed allow-set behaviour. -/
theorem cors_origin_counterexample :
    (POST ⟨none, none, none, none⟩
        ⟨some (str "https://app.shopfront.example"), .ok (Json.obj [])⟩
        (.error (str "no key")) (.ok ()) []).cors.allowOrigin =
      str "https://www.martiviconsulting.com" ∧
    ¬ (POST ⟨none, none, none, none⟩
        ⟨some (str "https://app.shopfront.example"), .ok (Json.obj [])⟩
        (.error (str "no key")) (.ok ()) []).cors.allowOrigin = str "*" ∧
    ¬ (POST ⟨none, none, none, none⟩
        ⟨some (str "https://app.shopfront.example"), .ok (Json.obj [])⟩
        (.error (str "no key")) (.ok ()) []).cors.allowOrigin =
      str "https://app.shopfront.example" := by
  refine ⟨by decide, by decide, by decide⟩

/-- C4 as amended: the Access-Control-Allow-Origin value is one fixed string
computed from configuration alone — the configured `ALLOWED_ORIGIN` when set
and non-empty, else the fixed default — carried unchanged on every POST
response (any branch), every OPTIONS response and every GET response; the
request (in particular its origin) is never consulted. -/
theorem cors_origin_fixed_config (env : Env) (req : Request)
    (prov : Except (List Char) (Option (List Char))) (w : Except (List Char) Unit)
    (now : List Char) :
    (POST env req prov w now).cors = CORS env ∧
    (OPTIONS env req).2 = CORS env ∧ (GET env req).2 = CORS env ∧
    (CORS env).allowOrigin =
      orDefault env.ALLOWED_ORIGIN (str "https://www.martiviconsulting.com") := by
  refine ⟨?_, rfl, rfl, rfl⟩
  rcases req with ⟨o, body⟩
  cases body with
  | error m => simp [POST, errResp]
  | ok j =>
    cases hbp : bodyParse j with
    | error is => simp [POST, hbp, errResp]
    | ok pl =>
      cases hkey : envTruthy env.OPENAI_API_KEY with
      | false => simp [POST, hbp, hkey, errResp]
      | true =>
        cases prov with
        | error m => simp [POST, hbp, hkey, errResp]
        | ok content => simp [POST, hbp, hkey]

/-- C5: with a valid payload but an absent (or empty, hence falsy) provider
credential, the handler answers 500 with the configuration error body and no
provider call is attempted. -/
theorem missing_credential_500_no_provider_call (env : Env) (o : Option (List Char))
    (j : Json) (pl : Payload) (prov : Except (List Char) (Option (List Char)))
    (w : Except (List Char) Unit) (now : List Char)
    (hparse : bodyParse j = .ok pl) (hkey : envTruthy env.OPENAI_API_KEY = false) :
    (POST env ⟨o, .ok j⟩ prov w now).status = 500 ∧
    (POST env ⟨o, .ok j⟩ prov w now).body = .error (str "OPENAI_API_KEY missing") ∧
    (POST env ⟨o, .ok j⟩ prov w now).providerRequests = [] := by
  have hred : POST env ⟨o, .ok j⟩ prov w now = errResp env (str "OPENAI_API_KEY missing") [] := by
    simp [POST, hparse, hkey]
  rw [hred]
  refine ⟨?_, rfl, rfl⟩
  show statusOf (str "OPENAI_API_KEY missing") = 500
  decide

/-- Witness for C5: a concrete unconfigured environment and valid payload. -/
theorem missing_credential_500_no_provider_call_witness :
    bodyParse (Json.obj [(str "messages", Json.arr [])]) = .ok ⟨[], none⟩ ∧
    envTruthy (⟨none, none, none, none⟩ : Env).OPENAI_API_KEY = false ∧
    (POST ⟨none, none, none, none⟩ ⟨none, .ok (Json.obj [(str "messages", Json.arr [])])⟩
      (.error (str "provider down")) (.ok ()) []).status = 500 ∧
    (POST ⟨none, none, none, none⟩ ⟨none, .ok (Json.obj [(str "messages", Json.arr [])])⟩
      (.error (str "provider down")) (.ok ()) []).body =
      .error (str "OPENAI_API_KEY missing") ∧
    (POST ⟨none, none, none, none⟩ ⟨none, .ok (Json.obj [(str "messages", Json.arr [])])⟩
      (.error (str "provider down")) (.ok ()) []).providerRequests = [] := by
  have h := missing_credential_500_no_provider_call ⟨none, none, none, none⟩ none
    (Json.obj [(str "messages", Json.arr [])]) ⟨[], none⟩
    (.error (str "provider down")) (.ok ()) [] rfl rfl
  exact ⟨rfl, rfl, h.1, h.2.1, h.2.2⟩

/-- A left error survives `mergeE` and `map`. -/
theorem mergeE_error_left {α β γ : Type} (e : List ZodIssue) (r2 : Except (List ZodIssue) β)
    (f : α × β → γ) : ∃ es, (mergeE (.error e) r2).map f = .error es := by
  cases r2 with
  | ok b => exact ⟨e, rfl⟩
  | error f2 => exact ⟨e ++ f2, rfl⟩

/-- A message object whose role is a string outside the enumeration fails
validation, whatever its other fields hold. -/
theorem parseMessage_err {p : List PathKey} {mf : List (List Char × Json)} {s : List Char}
    (hrole : jlookup (str "role") mf = some (Json.str s))
    (h1 : s ≠ str "system") (h2 : s ≠ str "user") (h3 : s ≠ str "assistant") :
    ∃ es, parseMessage p (Json.obj mf) = .error es := by
  simp only [parseMessage, hrole, parseRole, if_neg h1, if_neg h2, if_neg h3]
  exact mergeE_error_left _ _ _

/-- An array containing a failing element fails elementwise validation. -/
theorem parseElems_err {p : List PathKey} {bad : Json}
    (hbad : ∀ q : List PathKey, ∃ es, parseMessage q bad = .error es) :
    ∀ (pre post : List Json) (i : Nat), ∃ es, parseElems p i (pre ++ bad :: post) = .error es := by
  intro pre
  induction pre with
  | nil =>
    intro post i
    rcases hbad (p ++ [.idx i]) with ⟨e0, he0⟩
    simp only [List.nil_append, parseElems, he0]
    exact mergeE_error_left e0 _ _
  | cons x pre2 ih =>
    intro post i
    rcases ih post (i + 1) with ⟨es2, hes2⟩
    cases hx : parseMessage (p ++ [.idx i]) x with
    | ok m =>
      refine ⟨es2, ?_⟩
      simp only [List.cons_append, parseElems, List.append_eq, hx, hes2]
      rfl
    | error ex =>
      refine ⟨ex ++ es2, ?_⟩
      simp only [List.cons_append, parseElems, List.append_eq, hx, hes2]
      rfl

/-- A body whose messages array contains a message with a role outside the
enumeration fails the whole schema. -/
theorem bodyParse_err {fs mf : List (List Char × Json)} {pre post : List Json} {s : List Char}
    (hm : jlookup (str "messages") fs = some (Json.arr (pre ++ Json.obj mf :: post)))
    (hrole : jlookup (str "role") mf = some (Json.str s))
    (h1 : s ≠ str "system") (h2 : s ≠ str "user") (h3 : s ≠ str "assistant") :
    ∃ es, bodyParse (Json.obj fs) = .error es := by
  rcases parseElems_err (p := [.key (str "messages")])
      (fun q => parseMessage_err (p := q) hrole h1 h2 h3) pre post 0 with ⟨es, hes⟩
  simp only [bodyParse, hm, parseMessages, hes]
  exact mergeE_error_left es _ _

/-- C6 counterexample: a role string that itself contains `OPENAI_API_KEY`
is echoed into the zod message through the received-value field, so the
catch block misclassifies the validation failure and answers 500 — not the
claimed client-error 400. -/
theorem invalid_role_can_return_500 :
    (POST ⟨none, some (str "k"), none, none⟩
        ⟨none, .ok (Json.obj [(str "messages", Json.arr
          [Json.obj [(str "role", Json.str (str "OPENAI_API_KEY")),
            (str "content", Json.str (str "x"))]])])⟩
        (.ok (some (str "hello"))) (.ok ()) []).status = 500 ∧
    ¬ (POST ⟨none, some (str "k"), none, none⟩
        ⟨none, .ok (Json.obj [(str "messages", Json.arr
          [Json.obj [(str "role", Json.str (str "OPENAI_API_KEY")),
            (str "content", Json.str (str "x"))]])])⟩
        (.ok (some (str "hello"))) (.ok ()) []).status = 400 := by
  refine ⟨by decide, by decide⟩

/-- C6 as amended: a payload carrying a message whose role is outside the
closed set is rejected with an error body, no provider call and no webhook
call; the status is 400 exactly when the zod message does not contain
`OPENAI_API_KEY` — true for ordinary role strings, while a role whose echo
carries that marker flips the catch block to 500. -/
theorem invalid_role_rejected (env : Env) (o : Option (List Char))
    (fs mf : List (List Char × Json)) (pre post : List Json) (s : List Char)
    (prov : Except (List Char) (Option (List Char))) (w : Except (List Char) Unit)
    (now : List Char)
    (hm : jlookup (str "messages") fs = some (Json.arr (pre ++ Json.obj mf :: post)))
    (hrole : jlookup (str "role") mf = some (Json.str s))
    (h1 : s ≠ str "system") (h2 : s ≠ str "user") (h3 : s ≠ str "assistant") :
    (POST env ⟨o, .ok (Json.obj fs)⟩ prov w now).body.isReply = false ∧
    (POST env ⟨o, .ok (Json.obj fs)⟩ prov w now).providerRequests = [] ∧
    (POST env ⟨o, .ok (Json.obj fs)⟩ prov w now).webhookCalls = [] ∧
    (containsSub (str "OPENAI_API_KEY")
        (errMsgOf (POST env ⟨o, .ok (Json.obj fs)⟩ prov w now)) = false →
      (POST env ⟨o, .ok (Json.obj fs)⟩ prov w now).status = 400) ∧
    (containsSub (str "OPENAI_API_KEY")
        (errMsgOf (POST env ⟨o, .ok (Json.obj fs)⟩ prov w now)) = true →
      (POST env ⟨o, .ok (Json.obj fs)⟩ prov w now).status = 500) := by
  rcases bodyParse_err hm hrole h1 h2 h3 with ⟨es, hes⟩
  have hred : POST env ⟨o, .ok (Json.obj fs)⟩ prov w now =
      errResp env (zodMessage es) [] := by
    simp [POST, hes]
  rw [hred]
  refine ⟨rfl, rfl, rfl, ?_, ?_⟩
  · intro hc
    have hc2 : containsSub (str "OPENAI_API_KEY") (zodMessage es) = false := hc
    show statusOf (zodMessage es) = 400
    unfold statusOf
    rw [hc2]
    rfl
  · intro hc
    have hc2 : containsSub (str "OPENAI_API_KEY") (zodMessage es) = true := hc
    show statusOf (zodMessage es) = 500
    unfold statusOf
    rw [hc2]
    rfl

/-- Witness for C6: role `bot` takes the 400 branch of the amended theorem;
role `OPENAI_API_KEY` takes the 500 branch. -/
theorem invalid_role_rejected_witness :
    (POST ⟨none, some (str "k"), none, none⟩
        ⟨none, .ok (Json.obj [(str "messages", Json.arr
          [Json.obj [(str "role", Json.str (str "bot")),
            (str "content", Json.str (str "x"))]])])⟩
        (.ok (some (str "hello"))) (.ok ()) []).status = 400 ∧
    (POST ⟨none, some (str "k"), none, none⟩
        ⟨none, .ok (Json.obj [(str "messages", Json.arr
          [Json.obj [(str "role", Json.str (str "bot")),
            (str "content", Json.str (str "x"))]])])⟩
        (.ok (some (str "hello"))) (.ok ()) []).body.isReply = false ∧
    (POST ⟨none, some (str "k"), none, none⟩
        ⟨none, .ok (Json.obj [(str "messages", Json.arr
          [Json.obj [(str "role", Json.str (str "bot")),
            (str "content", Json.str (str "x"))]])])⟩
        (.ok (some (str "hello"))) (.ok ()) []).providerRequests = [] ∧
    (POST ⟨none, some (str "k"), none, none⟩
        ⟨none, .ok (Json.obj [(str "messages", Json.arr
          [Json.obj [(str "role", Json.str (str "bot")),
            (str "content", Json.str (str "x"))]])])⟩
        (.ok (some (str "hello"))) (.ok ()) []).webhookCalls = [] ∧
    (POST ⟨none, some (str "k"), none, none⟩
        ⟨none, .ok (Json.obj [(str "messages", Json.arr
          [Json.obj [(str "role", Json.str (str "OPENAI_API_KEY")),
            (str "content", Json.str (str "x"))]])])⟩
        (.ok (some (str "hello"))) (.ok ()) []).status = 500 := by
  have hbot := invalid_role_rejected ⟨none, some (str "k"), none, none⟩ none
    [(str "messages", Json.arr [Json.obj [(str "role", Json.str (str "bot")),
      (str "content", Json.str (str "x"))]])]
    [(str "role", Json.str (str "bot")), (str "content", Json.str (str "x"))]
    [] [] (str "bot") (.ok (some (str "hello"))) (.ok ()) []
    rfl rfl (by decide) (by decide) (by decide)
  have hkey := invalid_role_rejected ⟨none, some (str "k"), none, none⟩ none
    [(str "messages", Json.arr [Json.obj [(str "role", Json.str (str "OPENAI_API_KEY")),
      (str "content", Json.str (str "x"))]])]
    [(str "role", Json.str (str "OPENAI_API_KEY")), (str "content", Json.str (str "x"))]
    [] [] (str "OPENAI_API_KEY") (.ok (some (str "hello"))) (.ok ()) []
    rfl rfl (by decide) (by decide) (by decide)
  exact ⟨hbot.2.2.2.1 (by decide), hbot.1, hbot.2.1, hbot.2.2.1,
    hkey.2.2.2.2 (by decide)⟩

/-- C7 counterexample: for a payload whose only flaw is `role: "bot"`, the
400 error body contains both `messages` and `role` — the zod error message
names the path of the failing field, so the message is not opaque and the
claim that it does not echo which field failed is false on the code. -/
theorem schema_error_message_echoes_field :
    (POST ⟨none, some (str "k"), none, none⟩
        ⟨none, .ok (Json.obj [(str "messages", Json.arr
          [Json.obj [(str "role", Json.str (str "bot")),
            (str "content", Json.str (str "x"))]])])⟩
        (.ok (some (str "hello"))) (.ok ()) []).status = 400 ∧
    containsSub (str "messages") (errMsgOf (POST ⟨none, some (str "k"), none, none⟩
        ⟨none, .ok (Json.obj [(str "messages", Json.arr
          [Json.obj [(str "role", Json.str (str "bot")),
            (str "content", Json.str (str "x"))]])])⟩
        (.ok (some (str "hello"))) (.ok ()) [])) = true ∧
    containsSub (str "role") (errMsgOf (POST ⟨none, some (str "k"), none, none⟩
        ⟨none, .ok (Json.obj [(str "messages", Json.arr
          [Json.obj [(str "role", Json.str (str "bot")),
            (str "content", Json.str (str "x"))]])])⟩
        (.ok (some (str "hello"))) (.ok ()) [])) = true := by
  refine ⟨by decide, by decide, by decide⟩

/-- C7 as amended: every schema failure fails the request wholesale with an
error body carrying the validation message — which names the path of each
failing field rather than being opaque — and no provider or webhook call
happens; malformed JSON likewise fails wholesale with the parser message.
In both cases the status is 400 exactly when the carried message does not
contain `OPENAI_API_KEY`, and 500 when an echoed payload value or a parser
excerpt of the input contains that marker. -/
theorem schema_failure_wholesale_with_path_message
    (env : Env) (o : Option (List Char)) (j : Json) (issues : List ZodIssue) (m : List Char)
    (prov : Except (List Char) (Option (List Char))) (w : Except (List Char) Unit)
    (now : List Char) :
    (bodyParse j = .error issues →
      (POST env ⟨o, .ok j⟩ prov w now).body = .error (zodMessage issues) ∧
      (POST env ⟨o, .ok j⟩ prov w now).providerRequests = [] ∧
      (POST env ⟨o, .ok j⟩ prov w now).webhookCalls = [] ∧
      (containsSub (str "OPENAI_API_KEY") (zodMessage issues) = false →
        (POST env ⟨o, .ok j⟩ prov w now).status = 400) ∧
      (containsSub (str "OPENAI_API_KEY") (zodMessage issues) = true →
        (POST env ⟨o, .ok j⟩ prov w now).status = 500)) ∧
    ((POST env ⟨o, .error m⟩ prov w now).body = .error m ∧
      (POST env ⟨o, .error m⟩ prov w now).providerRequests = [] ∧
      (POST env ⟨o, .error m⟩ prov w now).webhookCalls = [] ∧
      (containsSub (str "OPENAI_API_KEY") m = false →
        (POST env ⟨o, .error m⟩ prov w now).status = 400) ∧
      (containsSub (str "OPENAI_API_KEY") m = true →
        (POST env ⟨o, .error m⟩ prov w now).status = 500)) := by
  constructor
  · intro hes
    have hred : POST env ⟨o, .ok j⟩ prov w now = errResp env (zodMessage issues) [] := by
      simp [POST, hes]
    rw [hred]
    refine ⟨rfl, rfl, rfl, ?_, ?_⟩
    · intro hc
      show statusOf (zodMessage issues) = 400
      unfold statusOf
      rw [hc]
      rfl
    · intro hc
      show statusOf (zodMessage issues) = 500
      unfold statusOf
      rw [hc]
      rfl
  · have hred : POST env ⟨o, .error m⟩ prov w now = errResp env m [] := by
      simp [POST]
    rw [hred]
    refine ⟨rfl, rfl, rfl, ?_, ?_⟩
    · intro hc
      show statusOf m = 400
      unfold statusOf
      rw [hc]
      rfl
    · intro hc
      show statusOf m = 500
      unfold statusOf
      rw [hc]
      rfl

/-- Witness for C7: the bad-role payload (400), a typical JSON syntax error
message (400), and a parser message quoting an input that contains the
marker (500), each through the amended theorem. -/
theorem schema_failure_wholesale_with_path_message_witness :
    (POST ⟨none, some (str "k"), none, none⟩
        ⟨none, .ok (Json.obj [(str "messages", Json.arr
          [Json.obj [(str "role", Json.str (str "bot")),
            (str "content", Json.str (str "x"))]])])⟩
        (.ok (some (str "hello"))) (.ok ()) []).body.isReply = false ∧
    (POST ⟨none, some (str "k"), none, none⟩
        ⟨none, .ok (Json.obj [(str "messages", Json.arr
          [Json.obj [(str "role", Json.str (str "bot")),
            (str "content", Json.str (str "x"))]])])⟩
        (.ok (some (str "hello"))) (.ok ()) []).providerRequests = [] ∧
    (POST ⟨none, some (str "k"), none, none⟩
        ⟨none, .error (str "Unexpected token u in JSON at position 0")⟩
        (.ok (some (str "hello"))) (.ok ()) []).status = 400 ∧
    (POST ⟨none, some (str "k"), none, none⟩
        ⟨none, .error (str "Unexpected token u in JSON at position 0")⟩
        (.ok (some (str "hello"))) (.ok ()) []).body =
      .error (str "Unexpected token u in JSON at position 0") ∧
    (POST ⟨none, some (str "k"), none, none⟩
        ⟨none, .error (str "Unexpected token \x27O\x27, \"OPENAI_API_KEY\" is not valid JSON")⟩
        (.ok (some (str "hello"))) (.ok ()) []).status = 500 := by
  have h1 := schema_failure_wholesale_with_path_message ⟨none, some (str "k"), none, none⟩ none
    (Json.obj [(str "messages", Json.arr [Json.obj [(str "role", Json.str (str "bot")),
      (str "content", Json.str (str "x"))]])])
    [.invalidEnum (str "bot") [.key (str "messages"), .idx 0, .key (str "role")]]
    (str "Unexpected token u in JSON at position 0")
    (.ok (some (str "hello"))) (.ok ()) []
  have h2 := schema_failure_wholesale_with_path_message ⟨none, some (str "k"), none, none⟩ none
    (Json.obj [(str "messages", Json.arr [Json.obj [(str "role", Json.str (str "bot")),
      (str "content", Json.str (str "x"))]])])
    [.invalidEnum (str "bot") [.key (str "messages"), .idx 0, .key (str "role")]]
    (str "Unexpected token \x27O\x27, \"OPENAI_API_KEY\" is not valid JSON")
    (.ok (some (str "hello"))) (.ok ()) []
  have hbad := h1.1 rfl
  refine ⟨?_, hbad.2.1, h1.2.2.2.2.1 (by decide), h1.2.1, h2.2.2.2.2.2 (by decide)⟩
  rw [hbad.1]
  rfl

/-- C8: the outcome of the webhook fetch never changes the user-facing
response — status, body and the attempted calls are identical whether the
fetch fails or succeeds — and whenever a webhook call was attempted and
failed, the failure is logged and the response is still the 200 `\x7breply\x7d`
success response. -/
theorem webhook_failure_swallowed (env : Env) (req : Request)
    (prov : Except (List Char) (Option (List Char))) (now e : List Char) :
    (POST env req prov (.error e) now).status = (POST env req prov (.ok ()) now).status ∧
    (POST env req prov (.error e) now).body = (POST env req prov (.ok ()) now).body ∧
    (POST env req prov (.error e) now).webhookCalls =
      (POST env req prov (.ok ()) now).webhookCalls ∧
    ((POST env req prov (.error e) now).webhookCalls ≠ [] →
      (POST env req prov (.error e) now).status = 200 ∧
      (POST env req prov (.error e) now).body.isReply = true ∧
      (POST env req prov (.error e) now).logged = [str "Lead webhook error: " ++ e]) := by
  rcases req with ⟨o, body⟩
  cases body with
  | error m => exact ⟨rfl, rfl, rfl, fun h => absurd rfl h⟩
  | ok j =>
    cases hbp : bodyParse j with
    | error is =>
      have hr1 : POST env ⟨o, .ok j⟩ prov (.error e) now = errResp env (zodMessage is) [] := by
        simp [POST, hbp]
      have hr2 : POST env ⟨o, .ok j⟩ prov (.ok ()) now = errResp env (zodMessage is) [] := by
        simp [POST, hbp]
      rw [hr1, hr2]
      exact ⟨rfl, rfl, rfl, fun h => absurd rfl h⟩
    | ok pl =>
      cases hkey : envTruthy env.OPENAI_API_KEY with
      | false =>
        have hr1 : POST env ⟨o, .ok j⟩ prov (.error e) now =
            errResp env (str "OPENAI_API_KEY missing") [] := by
          simp [POST, hbp, hkey]
        have hr2 : POST env ⟨o, .ok j⟩ prov (.ok ()) now =
            errResp env (str "OPENAI_API_KEY missing") [] := by
          simp [POST, hbp, hkey]
        rw [hr1, hr2]
        exact ⟨rfl, rfl, rfl, fun h => absurd rfl h⟩
      | true =>
        cases prov with
        | error m =>
          have hr1 : POST env ⟨o, .ok j⟩ (.error m) (.error e) now =
              errResp env m [providerMessages env pl.messages] := by
            simp [POST, hbp, hkey]
          have hr2 : POST env ⟨o, .ok j⟩ (.error m) (.ok ()) now =
              errResp env m [providerMessages env pl.messages] := by
            simp [POST, hbp, hkey]
          rw [hr1, hr2]
          exact ⟨rfl, rfl, rfl, fun h => absurd rfl h⟩
        | ok content =>
          cases hc : (emailTest (serverText env content) || leadHasEmail pl.lead) &&
              envTruthy env.LEAD_WEBHOOK_URL with
          | false =>
            refine ⟨?_, ?_, ?_, ?_⟩
            · simp [POST, hbp, hkey, hc]
            · simp [POST, hbp, hkey, hc]
            · simp [POST, hbp, hkey, hc]
            · intro h
              exact absurd (by simp [POST, hbp, hkey, hc]) h
          | true =>
            refine ⟨?_, ?_, ?_, ?_⟩
            · simp [POST, hbp, hkey, hc]
            · simp [POST, hbp, hkey, hc]
            · simp [POST, hbp, hkey, hc]
            · intro _
              refine ⟨?_, ?_, ?_⟩
              · simp [POST, hbp, hkey, hc]
              · simp [POST, hbp, hkey, hc, RespBody.isReply]
              · simp [POST, hbp, hkey, hc]

/-- Witness for C8: a lead-bearing reply with a configured webhook whose
fetch fails; the call is attempted, the failure is logged, and the response
is the same 200 success as on webhook success. -/
theorem webhook_failure_swallowed_witness :
    (POST ⟨none, some (str "k"), none, some (str "https://hooks.example/lead")⟩
        ⟨none, .ok (Json.obj [(str "messages", Json.arr [])])⟩
        (.ok (some (str "Reach us at team@acme.io")))
        (.error (str "ECONNREFUSED")) (str "T0")).webhookCalls ≠ [] ∧
    (POST ⟨none, some (str "k"), none, some (str "https://hooks.example/lead")⟩
        ⟨none, .ok (Json.obj [(str "messages", Json.arr [])])⟩
        (.ok (some (str "Reach us at team@acme.io")))
        (.error (str "ECONNREFUSED")) (str "T0")).status = 200 ∧
    (POST ⟨none, some (str "k"), none, some (str "https://hooks.example/lead")⟩
        ⟨none, .ok (Json.obj [(str "messages", Json.arr [])])⟩
        (.ok (some (str "Reach us at team@acme.io")))
        (.error (str "ECONNREFUSED")) (str "T0")).body.isReply = true ∧
    (POST ⟨none, some (str "k"), none, some (str "https://hooks.example/lead")⟩
        ⟨none, .ok (Json.obj [(str "messages", Json.arr [])])⟩
        (.ok (some (str "Reach us at team@acme.io")))
        (.error (str "ECONNREFUSED")) (str "T0")).logged =
      [str "Lead webhook error: " ++ str "ECONNREFUSED"] ∧
    (POST ⟨none, some (str "k"), none, some (str "https://hooks.example/lead")⟩
        ⟨none, .ok (Json.obj [(str "messages", Json.arr [])])⟩
        (.ok (some (str "Reach us at team@acme.io")))
        (.error (str "ECONNREFUSED")) (str "T0")).body =
      (POST ⟨none, some (str "k"), none, some (str "https://hooks.example/lead")⟩
        ⟨none, .ok (Json.obj [(str "messages", Json.arr [])])⟩
        (.ok (some (str "Reach us at team@acme.io")))
        (.ok ()) (str "T0")).body := by
  have h := webhook_failure_swallowed
    ⟨none, some (str "k"), none, some (str "https://hooks.example/lead")⟩
    ⟨none, .ok (Json.obj [(str "messages", Json.arr [])])⟩
    (.ok (some (str "Reach us at team@acme.io"))) (str "T0") (str "ECONNREFUSED")
  have hne : (POST ⟨none, some (str "k"), none, some (str "https://hooks.example/lead")⟩
      ⟨none, .ok (Json.obj [(str "messages", Json.arr [])])⟩
      (.ok (some (str "Reach us at team@acme.io")))
      (.error (str "ECONNREFUSED")) (str "T0")).webhookCalls ≠ [] := by decide
  have h4 := h.2.2.2 hne
  exact ⟨hne, h4.1, h4.2.1, h4.2.2, h.2.1⟩

/-- C9: the widget send operation is a strict no-op (state untouched, no
request issued) when the trimmed draft is empty, and otherwise — whether the
network call succeeds or fails — a request is issued and the loading flag is
false when control returns. -/
theorem sendMessage_noop_or_clears_loading (s : WidgetState) (net : Except (List Char) Json) :
    ((jsTrim s.input).isEmpty = true →
      (sendMessage s net).state = s ∧ (sendMessage s net).requestSent = false) ∧
    ((jsTrim s.input).isEmpty = false →
      (sendMessage s net).state.loading = false ∧ (sendMessage s net).requestSent = true) := by
  constructor
  · intro h
    constructor <;> simp [sendMessage, h]
  · intro h
    cases net with
    | error e => constructor <;> simp [sendMessage, h]
    | ok data => cases data <;> constructor <;> simp [sendMessage, h]

/-- Witness for C9: drafts of spaces, of a form feed and of a no-break space
are each a strict no-op (all JS whitespace); a real draft clears the loading
flag on network success and on network failure. -/
theorem sendMessage_noop_or_clears_loading_witness :
    (sendMessage ⟨true, [], str "   ", false⟩ (.ok Json.null)).state =
      ⟨true, [], str "   ", false⟩ ∧
    (sendMessage ⟨true, [], str "   ", false⟩ (.ok Json.null)).requestSent = false ∧
    (sendMessage ⟨true, [], ['\u000C'], true⟩ (.error (str "net down"))).state =
      ⟨true, [], ['\u000C'], true⟩ ∧
    (sendMessage ⟨true, [], ['\u000C'], true⟩ (.error (str "net down"))).requestSent = false ∧
    (sendMessage ⟨true, [], ['\u00A0'], false⟩ (.ok Json.null)).requestSent = false ∧
    (sendMessage ⟨true, [], str "hello", true⟩
      (.ok (Json.obj [(str "reply", Json.str (str "hi"))]))).state.loading = false ∧
    (sendMessage ⟨true, [], str "hello", true⟩
      (.ok (Json.obj [(str "reply", Json.str (str "hi"))]))).requestSent = true ∧
    (sendMessage ⟨true, [], str "hello", true⟩ (.error (str "net down"))).state.loading = false := by
  have h1 := (sendMessage_noop_or_clears_loading ⟨true, [], str "   ", false⟩
    (.ok Json.null)).1 (by decide)
  have hff := (sendMessage_noop_or_clears_loading ⟨true, [], ['\u000C'], true⟩
    (.error (str "net down"))).1 (by decide)
  have hnb := (sendMessage_noop_or_clears_loading ⟨true, [], ['\u00A0'], false⟩
    (.ok Json.null)).1 (by decide)
  have h2 := (sendMessage_noop_or_clears_loading ⟨true, [], str "hello", true⟩
    (.ok (Json.obj [(str "reply", Json.str (str "hi"))]))).2 (by decide)
  have h3 := (sendMessage_noop_or_clears_loading ⟨true, [], str "hello", true⟩
    (.error (str "net down"))).2 (by decide)
  exact ⟨h1.1, h1.2, hff.1, hff.2, hnb.2, h2.1, h2.2, h3.1⟩

/-- C1 counterexample: a provider reply containing a bare Calendly URL is
returned by the server verbatim in the 200 response body — the scheduling
domain still occurs in the reply, so the claim that the server-sanitized
response contains no occurrence of the domain is false on the code. -/
theorem calendly_domain_in_response :
    (POST ⟨none, some (str "k"), none, none⟩
        ⟨none, .ok (Json.obj [(str "messages", Json.arr [])])⟩
        (.ok (some (str "Pick a time: https://calendly.com/acme/intro")))
        (.ok ()) []).status = 200 ∧
    containsSub (str "calendly.com") (replyTextOf (POST ⟨none, some (str "k"), none, none⟩
        ⟨none, .ok (Json.obj [(str "messages", Json.arr [])])⟩
        (.ok (some (str "Pick a time: https://calendly.com/acme/intro")))
        (.ok ()) [])) = true := by
  refine ⟨by decide, by decide⟩

/-- C1 as amended: the server does not strip scheduling-domain URLs.  Its
only rewrite is the `[#]` placeholder substitution, so every substring of
the raw provider reply that avoids the placeholder characters — in
particular any occurrence of the scheduling domain, in any letter case —
still occurs in the reply text of the 200 response body.  (The stripping the
spec describes lives in the client widget, modelled by `cleanReply`.) -/
theorem serverReply_preserves_nonplaceholder_substrings (env : Env) (o : Option (List Char))
    (j : Json) (pl : Payload) (content : Option (List Char)) (sub : List Char)
    (w : Except (List Char) Unit) (now : List Char)
    (hparse : bodyParse j = .ok pl) (hkey : envTruthy env.OPENAI_API_KEY = true)
    (h1 : '[' ∉ sub) (h2 : '#' ∉ sub) (h3 : ']' ∉ sub)
    (hin : sub <:+: content.getD []) :
    (POST env ⟨o, .ok j⟩ (.ok content) w now).body = .reply (serverText env content) ∧
    sub <:+: serverText env content := by
  constructor
  · simp [POST, hparse, hkey]
  · unfold serverText
    exact infix_replaceFirst h1 h2 h3 hin

/-- Witness for C1: the amended theorem at the concrete reply of the
counterexample, with the domain substring `calendly.com`. -/
theorem serverReply_preserves_nonplaceholder_substrings_witness :
    (POST ⟨none, some (str "k"), none, none⟩
        ⟨none, .ok (Json.obj [(str "messages", Json.arr [])])⟩
        (.ok (some (str "Pick a time: https://calendly.com/acme/intro")))
        (.ok ()) []).body =
      .reply (serverText ⟨none, some (str "k"), none, none⟩
        (some (str "Pick a time: https://calendly.com/acme/intro"))) ∧
    str "calendly.com" <:+: serverText ⟨none, some (str "k"), none, none⟩
      (some (str "Pick a time: https://calendly.com/acme/intro")) :=
  serverReply_preserves_nonplaceholder_substrings ⟨none, some (str "k"), none, none⟩ none
    (Json.obj [(str "messages", Json.arr [])]) ⟨[], none⟩
    (some (str "Pick a time: https://calendly.com/acme/intro")) (str "calendly.com")
    (.ok ()) [] rfl rfl (by decide) (by decide) (by decide) (by decide)

/-- The placeholder cannot start at the head of `pre ++ placeholder ++ post`
when the nonempty prefix `pre = c :: pre2` contains no occurrence of it:
the three placeholder characters would have to straddle into `pre`. -/
theorem placeholder_not_prefix_cons {c : Char} {pre2 : List Char}
    (hni : ¬ placeholder <:+: c :: pre2) (post : List Char) :
    ¬ placeholder.isPrefixOf (c :: (pre2 ++ (placeholder ++ post))) = true := by
  intro hp
  have hpre := List.isPrefixOf_iff_prefix.mp hp
  rw [placeholder_eq] at hpre
  rcases List.cons_prefix_cons.mp hpre with ⟨hc, h2⟩
  cases pre2 with
  | nil =>
    have h2b : ['#', ']'] <+: '[' :: ('#' :: (']' :: post)) := h2
    rcases List.cons_prefix_cons.mp h2b with ⟨hd, _⟩
    exact absurd hd (by decide)
  | cons d pre3 =>
    have h2b : ['#', ']'] <+: d :: (pre3 ++ (placeholder ++ post)) := h2
    rcases List.cons_prefix_cons.mp h2b with ⟨hd, h3⟩
    cases pre3 with
    | nil =>
      have h3b : [']'] <+: '[' :: ('#' :: (']' :: post)) := h3
      rcases List.cons_prefix_cons.mp h3b with ⟨he, _⟩
      exact absurd he (by decide)
    | cons e pre4 =>
      have h3b : [']'] <+: e :: (pre4 ++ (placeholder ++ post)) := h3
      rcases List.cons_prefix_cons.mp h3b with ⟨he, _⟩
      subst hc
      subst hd
      subst he
      exact hni (List.IsPrefix.isInfix ⟨pre4, rfl⟩)

/-- `replaceFirst` replaces exactly the first occurrence: an occurrence
preceded by placeholder-free text is the one substituted and that text
passes through unchanged. -/
theorem replaceFirst_first {rep : List Char} :
    ∀ (pre post : List Char), ¬ placeholder <:+: pre →
      replaceFirst placeholder rep (pre ++ placeholder ++ post) = pre ++ rep ++ post := by
  intro pre
  induction pre with
  | nil =>
    intro post _
    exact replaceFirst_at
  | cons c pre2 ih =>
    intro post hni
    have heq : (c :: pre2) ++ placeholder ++ post = c :: (pre2 ++ (placeholder ++ post)) := by
      simp
    rw [heq, replaceFirst_cons_ne (placeholder_not_prefix_cons hni post)]
    have heq2 : pre2 ++ (placeholder ++ post) = pre2 ++ placeholder ++ post := by simp
    rw [heq2, ih post (fun h => hni (List.infix_cons h))]
    rfl

/-- Every text containing the placeholder splits at its first occurrence:
the prefix before that occurrence contains none. -/
theorem placeholder_first_split :
    ∀ {s : List Char}, containsSub placeholder s = true →
      ∃ pre post, s = pre ++ placeholder ++ post ∧ ¬ placeholder <:+: pre := by
  intro s
  induction s with
  | nil => intro h; exact absurd h (by decide)
  | cons c rest ih =>
    intro h
    by_cases hp : placeholder.isPrefixOf (c :: rest) = true
    · rcases List.isPrefixOf_iff_prefix.mp hp with ⟨t, ht⟩
      refine ⟨[], t, ?_, by decide⟩
      rw [← ht]
      rfl
    · have h2 : containsSub placeholder rest = true := by
        rw [containsSub, Bool.or_eq_true] at h
        rcases h with h1 | h2
        · exact absurd h1 hp
        · exact h2
      rcases ih h2 with ⟨pre, post, heq, hni⟩
      refine ⟨c :: pre, post, by simp [heq], ?_⟩
      intro hinf
      rcases List.infix_cons_iff.mp hinf with hpre2 | hinf2
      · apply hp
        apply List.isPrefixOf_iff_prefix.mpr
        have hrw : c :: rest = (c :: pre) ++ (placeholder ++ post) := by simp [heq]
        rw [hrw]
        exact hpre2.trans (List.prefix_append _ _)
      · exact hni hinf2

/-- C10: for every provider reply whose text contains the literal `[#]`, the
server replaces the first occurrence with the configured Calendly link
before lead detection and before responding: the reply splits at that first
occurrence, the response body carries the substituted text, and every
attempted webhook call carries it as `rawReply` — so the response body can
contain the scheduling-domain URL. -/
theorem placeholder_replaced_with_calendly (env : Env) (o : Option (List Char)) (j : Json)
    (pl : Payload) (raw : List Char) (w : Except (List Char) Unit) (now : List Char)
    (hparse : bodyParse j = .ok pl) (hkey : envTruthy env.OPENAI_API_KEY = true)
    (hraw : containsSub placeholder raw = true) :
    ∃ pre post, raw = pre ++ placeholder ++ post ∧ ¬ placeholder <:+: pre ∧
      serverText env (some raw) = pre ++ CALENDLY env ++ post ∧
      (POST env ⟨o, .ok j⟩ (.ok (some raw)) w now).body =
        .reply (pre ++ CALENDLY env ++ post) ∧
      ∀ c ∈ (POST env ⟨o, .ok j⟩ (.ok (some raw)) w now).webhookCalls,
        c.rawReply = pre ++ CALENDLY env ++ post := by
  rcases placeholder_first_split hraw with ⟨pre, post, heq, hni⟩
  subst heq
  have hst : serverText env (some (pre ++ placeholder ++ post)) =
      pre ++ CALENDLY env ++ post := by
    unfold serverText
    rw [Option.getD_some]
    exact replaceFirst_first pre post hni
  refine ⟨pre, post, rfl, hni, hst, ?_, ?_⟩
  · have hb : (POST env ⟨o, .ok j⟩ (.ok (some (pre ++ placeholder ++ post))) w now).body =
        .reply (serverText env (some (pre ++ placeholder ++ post))) := by
      simp [POST, hparse, hkey]
    rw [hb, hst]
  · intro c hc
    have hcalls : (POST env ⟨o, .ok j⟩
          (.ok (some (pre ++ placeholder ++ post))) w now).webhookCalls =
        (if (emailTest (serverText env (some (pre ++ placeholder ++ post))) ||
            leadHasEmail pl.lead) && envTruthy env.LEAD_WEBHOOK_URL then
          [⟨str "chatbot", pl.lead.getD emptyLead,
            serverText env (some (pre ++ placeholder ++ post)), now⟩]
        else []) := by
      simp [POST, hparse, hkey]
    rw [hcalls] at hc
    split at hc
    · rcases List.mem_singleton.mp hc with rfl
      exact hst
    · exact absurd hc (List.not_mem_nil c)

/-- Witness for C10: a reply with a markdown link — hence an open bracket —
before the placeholder; the first `[#]` is still the one substituted, and
with the Calendly link configured the response body then contains the
scheduling domain. -/
theorem placeholder_replaced_with_calendly_witness :
    (∃ pre post, str "See [docs](https://martiviconsulting.com) then [#] now" =
        pre ++ placeholder ++ post ∧ ¬ placeholder <:+: pre ∧
        serverText ⟨none, some (str "k"), some (str "https://calendly.com/martividigital/30min"), none⟩
            (some (str "See [docs](https://martiviconsulting.com) then [#] now")) =
          pre ++ CALENDLY ⟨none, some (str "k"), some (str "https://calendly.com/martividigital/30min"), none⟩ ++ post ∧
        (POST ⟨none, some (str "k"), some (str "https://calendly.com/martividigital/30min"), none⟩
            ⟨none, .ok (Json.obj [(str "messages", Json.arr [])])⟩
            (.ok (some (str "See [docs](https://martiviconsulting.com) then [#] now"))) (.ok ()) []).body =
          .reply (pre ++ CALENDLY ⟨none, some (str "k"), some (str "https://calendly.com/martividigital/30min"), none⟩ ++ post) ∧
        ∀ c ∈ (POST ⟨none, some (str "k"), some (str "https://calendly.com/martividigital/30min"), none⟩
            ⟨none, .ok (Json.obj [(str "messages", Json.arr [])])⟩
            (.ok (some (str "See [docs](https://martiviconsulting.com) then [#] now"))) (.ok ()) []).webhookCalls,
          c.rawReply = pre ++ CALENDLY ⟨none, some (str "k"), some (str "https://calendly.com/martividigital/30min"), none⟩ ++ post) ∧
    containsSub (str "calendly.com") (replyTextOf
      (POST ⟨none, some (str "k"), some (str "https://calendly.com/martividigital/30min"), none⟩
        ⟨none, .ok (Json.obj [(str "messages", Json.arr [])])⟩
        (.ok (some (str "See [docs](https://martiviconsulting.com) then [#] now"))) (.ok ()) [])) = true := by
  refine ⟨placeholder_replaced_with_calendly ⟨none, some (str "k"), some (str "https://calendly.com/martividigital/30min"), none⟩ none
    (Json.obj [(str "messages", Json.arr [])]) ⟨[], none⟩
    (str "See [docs](https://martiviconsulting.com) then [#] now") (.ok ()) [] rfl rfl (by decide), by decide⟩

/-- C2: on a handled turn, lead detection fires exactly when the reply text
matches the declarative email pattern or the supplied lead has a non-empty
email; with a webhook target configured exactly one call is attempted, with
body source `chatbot`, the supplied lead (or the empty record), the reply
text as `rawReply` and the timestamp; with no target configured, or when
detection does not fire, no call is attempted. -/
theorem webhook_fires_iff_email_or_lead (env : Env) (o : Option (List Char)) (j : Json)
    (pl : Payload) (content : Option (List Char)) (w : Except (List Char) Unit)
    (now : List Char) (hparse : bodyParse j = .ok pl)
    (hkey : envTruthy env.OPENAI_API_KEY = true) :
    (envTruthy env.LEAD_WEBHOOK_URL = false →
      (POST env ⟨o, .ok j⟩ (.ok content) w now).webhookCalls = []) ∧
    ((emailPatternSpec (serverText env content) ∨ leadHasEmail pl.lead = true) →
      envTruthy env.LEAD_WEBHOOK_URL = true →
      (POST env ⟨o, .ok j⟩ (.ok content) w now).webhookCalls =
        [⟨str "chatbot", pl.lead.getD emptyLead, serverText env content, now⟩]) ∧
    (¬(emailPatternSpec (serverText env content) ∨ leadHasEmail pl.lead = true) →
      (POST env ⟨o, .ok j⟩ (.ok content) w now).webhookCalls = []) := by
  refine ⟨?_, ?_, ?_⟩
  · intro hw
    simp [POST, hparse, hkey, hw]
  · intro hd hw
    have hb : (emailTest (serverText env content) || leadHasEmail pl.lead) = true := by
      rw [Bool.or_eq_true]
      rcases hd with h | h
      · exact Or.inl ((emailTest_iff _).mpr h)
      · exact Or.inr h
    simp [POST, hparse, hkey, hb, hw]
  · intro hd
    have hb : (emailTest (serverText env content) || leadHasEmail pl.lead) = false := by
      cases he : emailTest (serverText env content) with
      | true => exact absurd (Or.inl (emailTest_sound he)) hd
      | false =>
        cases hl : leadHasEmail pl.lead with
        | true => exact absurd (Or.inr hl) hd
        | false => rfl
    simp [POST, hparse, hkey, hb]

/-- Witness for C2: a reply containing a mixed-case email address with a
configured webhook target yields exactly the one expected call. -/
theorem webhook_fires_iff_email_or_lead_witness :
    (POST ⟨none, some (str "k"), none, some (str "https://hooks.example/lead")⟩
        ⟨none, .ok (Json.obj [(str "messages", Json.arr [])])⟩
        (.ok (some (str "Great - email us: Sales@Example.com"))) (.ok ()) (str "T0")).webhookCalls =
      [⟨str "chatbot", emptyLead,
        serverText ⟨none, some (str "k"), none, some (str "https://hooks.example/lead")⟩
          (some (str "Great - email us: Sales@Example.com")), str "T0"⟩] ∧
    (POST ⟨none, some (str "k"), none, none⟩
        ⟨none, .ok (Json.obj [(str "messages", Json.arr [])])⟩
        (.ok (some (str "Great - email us: Sales@Example.com"))) (.ok ()) (str "T0")).webhookCalls =
      [] := by
  have h1 := webhook_fires_iff_email_or_lead
    ⟨none, some (str "k"), none, some (str "https://hooks.example/lead")⟩ none
    (Json.obj [(str "messages", Json.arr [])]) ⟨[], none⟩
    (some (str "Great - email us: Sales@Example.com")) (.ok ()) (str "T0") rfl rfl
  have h2 := webhook_fires_iff_email_or_lead
    ⟨none, some (str "k"), none, none⟩ none
    (Json.obj [(str "messages", Json.arr [])]) ⟨[], none⟩
    (some (str "Great - email us: Sales@Example.com")) (.ok ()) (str "T0") rfl rfl
  refine ⟨h1.2.1 (Or.inl ((emailTest_iff _).mp (by decide))) rfl, h2.1 rfl⟩
